import Mathlib

/-!
Verification of `market_state.py` (MarketPulse): a fallback-chained fetch
routine, column-name-tolerant summarization over tabular data, and a scope
dispatcher `get_market_state`.

Shallow embedding conventions:
* A pandas cell is `Cell`: a numeric value (`num`, modelled as a rational,
  covering values that `pd.to_numeric`/`float()` would accept, numeric
  strings included), a non-numeric string (`str`), or a missing value
  (`nan`).
* A `DataFrame` is a list of column names plus a list of rows.
* The external library `akshare` is modelled by a `World` record giving the
  outcome of each provider call; a call either returns a value
  (`FetchResult.ok` for a DataFrame, `FetchResult.notDf` for anything else)
  or raises (`FetchResult.exn`, also covering `AttributeError` from
  `_call_if_exists` when the function name is absent).
* Python exceptions are `PyExn` values threaded through `Except`.
* Machine-level call counting: every function paired with a `Nat` counts the
  provider-call attempts made (each attempted fetcher issues at most one
  blocking network call).
-/

namespace MarketState

/-- A tabular cell value. Numeric-convertible values (including numeric
strings) are modelled as `num`; non-numeric strings as `str`; NaN/None as
`nan`. -/
inductive Cell where
  | str (s : String)
  | num (q : ℚ)
  | nan
deriving DecidableEq

/-- A pandas DataFrame: ordered column names and rows of cells. -/
structure DataFrame where
  cols : List String
  rows : List (List Cell)
deriving DecidableEq

/-- `_safe_float` from the source, and also `pd.to_numeric(·, errors="coerce")`
on a single cell: a numeric value passes through, a missing or non-numeric
value becomes `none` (NaN). -/
def safe_float : Cell → Option ℚ
  | .num q => some q
  | _ => none

/-- The cell of `row` in column `c` of `df` (NaN when the column is absent). -/
def cellAt (df : DataFrame) (row : List Cell) (c : String) : Cell :=
  row.getD (df.cols.findIdx (fun s => s == c)) Cell.nan

/-- The column `c` of `df` as a list of cells, one per row. -/
def colCells (df : DataFrame) (c : String) : List Cell :=
  df.rows.map (fun r => cellAt df r c)

/-- `_pick_col`: the first candidate that occurs among the column names. -/
def pick_col (df : DataFrame) : List String → Option String
  | [] => none
  | c :: rest => if c ∈ df.cols then some c else pick_col df rest

/-- `df.head(n)` / `Series.head(n)`: the first `n` rows for `n ≥ 0`; for
negative `n`, all rows except the last `-n` (pandas slicing semantics). -/
def pdHead {α : Type} (l : List α) (n : Int) : List α :=
  if 0 ≤ n then l.take n.toNat else l.take (l.length - (-n).toNat)

/-- `Series.quantile(p)` with the default linear interpolation, over the
non-NaN values. Only called on nonempty lists by the source. -/
def quantile (l : List ℚ) (p : ℚ) : ℚ :=
  let s := l.insertionSort (fun a b => a ≤ b)
  let n := s.length
  let h : ℚ := p * ((n : ℚ) - 1)
  let i : ℕ := h.floor.toNat
  let lo := s.getD i 0
  let hi := s.getD (min (i + 1) (n - 1)) 0
  lo + (h - (i : ℚ)) * (hi - lo)

/-- The nested helper `q` of `_summarize_spot`:
`_safe_float(v.quantile(p)) if len(v) else None`. -/
def q_opt (v : List ℚ) (p : ℚ) : Option ℚ :=
  if v.length ≠ 0 then some (quantile v p) else none

/-- Pandas comparison of a possibly-NaN value with a threshold: NaN compares
false. -/
def cmpSome (f : ℚ → Bool) : Option ℚ → Bool
  | some v => f v
  | none => false

/-- Descending key order with NaN sorted last (`sort_values(ascending=False)`,
`na_position="last"`). -/
def naLastGeB : Option ℚ → Option ℚ → Bool
  | some x, some y => decide (y ≤ x)
  | some _, none => true
  | none, some _ => false
  | none, none => true

/-- Ascending key order with NaN sorted last (`sort_values(ascending=True)`,
`na_position="last"`). -/
def naLastLeB : Option ℚ → Option ℚ → Bool
  | some x, some y => decide (x ≤ y)
  | some _, none => true
  | none, some _ => false
  | none, none => true

/-- Row order induced by a numeric sort key, descending, NaN last. -/
def descRowRel (key : List Cell → Option ℚ) (r s : List Cell) : Prop :=
  naLastGeB (key r) (key s) = true

/-- Row order induced by a numeric sort key, ascending, NaN last. -/
def ascRowRel (key : List Cell → Option ℚ) (r s : List Cell) : Prop :=
  naLastLeB (key r) (key s) = true

instance (key : List Cell → Option ℚ) : DecidableRel (descRowRel key) :=
  fun r s => inferInstanceAs (Decidable (_ = true))

instance (key : List Cell → Option ℚ) : DecidableRel (ascRowRel key) :=
  fun r s => inferInstanceAs (Decidable (_ = true))

/-- `df.sort_values(col, ascending=False)` on the coerced numeric key. -/
def sortRowsDesc (key : List Cell → Option ℚ) (rows : List (List Cell)) :
    List (List Cell) :=
  rows.insertionSort (descRowRel key)

/-- `df.sort_values(col, ascending=True)` on the coerced numeric key. -/
def sortRowsAsc (key : List Cell → Option ℚ) (rows : List (List Cell)) :
    List (List Cell) :=
  rows.insertionSort (ascRowRel key)

/-- Breadth counts from `_summarize_spot`. -/
structure Breadth where
  advance : Nat
  decline : Nat
  flat : Nat
  total : Nat
deriving DecidableEq

/-- `pct_chg_quantiles` of `_summarize_spot`. -/
structure PctQuantiles where
  p10 : Option ℚ
  p50 : Option ℚ
  p90 : Option ℚ
deriving DecidableEq

/-- `turnover_quantiles` of `_summarize_spot`. -/
structure TurnoverQuantiles where
  p50 : Option ℚ
  p90 : Option ℚ
  p99 : Option ℚ
deriving DecidableEq

/-- One record of the `top_turnover` list: `code`/`name` kept raw, `last`
present only when a price column was located, `pct_chg`/`amount` passed
through `_safe_float`. -/
structure TopRecord where
  code : Cell
  name : Cell
  last : Option (Option ℚ)
  pct_chg : Option ℚ
  amount : Option ℚ
deriving DecidableEq

/-- Result dict of `_summarize_spot`: the missing-columns error dict, or the
full summary dict. -/
inductive SpotSummary where
  | missing (error : String) (available_cols : List String)
  | ok (breadth : Breadth) (pct_chg_quantiles : PctQuantiles)
      (turnover_quantiles : Option TurnoverQuantiles)
      (limit_up_like : Nat) (limit_down_like : Nat)
      (top_turnover : Option (List TopRecord))
deriving DecidableEq

/-- Candidate lists of `_summarize_spot`, in source order. -/
def code_candidates : List String := ["代码", "股票代码", "symbol", "code"]

def name_candidates : List String := ["名称", "股票简称", "name"]

def pct_candidates : List String :=
  ["涨跌幅", "涨跌幅%", "涨跌幅(%)", "changepercent", "pct_chg", "涨跌幅(%)"]

def price_candidates : List String := ["最新价", "现价", "price", "trade", "最新"]

def amount_candidates : List String :=
  ["成交额", "amount", "成交额(元)", "turnover", "成交额（元）", "成交额(万)"]

/-- Build one `top_turnover` record from a row. -/
def mkTopRecord (df : DataFrame) (cc nc : String) (price_col : Option String)
    (pc ac : String) (r : List Cell) : TopRecord :=
  { code := cellAt df r cc
    name := cellAt df r nc
    last := price_col.map (fun lc => safe_float (cellAt df r lc))
    pct_chg := safe_float (cellAt df r pc)
    amount := safe_float (cellAt df r ac) }

/-- `_summarize_spot`. -/
def summarize_spot (df : DataFrame) (top_n : Int) : SpotSummary :=
  let code_col := pick_col df code_candidates
  let name_col := pick_col df name_candidates
  let pct_col := pick_col df pct_candidates
  let price_col := pick_col df price_candidates
  let amount_col := pick_col df amount_candidates
  match code_col, name_col, pct_col with
  | some cc, some nc, some pc =>
    let pcts := (colCells df pc).map safe_float
    let breadth : Breadth :=
      { advance := pcts.countP (cmpSome (fun v => decide (0 < v)))
        decline := pcts.countP (cmpSome (fun v => decide (v < 0)))
        flat := pcts.countP (cmpSome (fun v => decide (v = 0)))
        total := df.rows.length }
    let pct := pcts.filterMap id
    let pct_quantiles : PctQuantiles :=
      { p10 := q_opt pct (1/10), p50 := q_opt pct (1/2), p90 := q_opt pct (9/10) }
    let limit_up_like := pcts.countP (cmpSome (fun v => decide ((19/2 : ℚ) ≤ v)))
    let limit_down_like := pcts.countP (cmpSome (fun v => decide (v ≤ -(19/2 : ℚ))))
    match amount_col with
    | none => .ok breadth pct_quantiles none limit_up_like limit_down_like none
    | some ac =>
      let amts := (colCells df ac).map safe_float
      let amt := amts.filterMap id
      if amt.length ≠ 0 then
        let turnover_quantiles : TurnoverQuantiles :=
          { p50 := q_opt amt (1/2), p90 := q_opt amt (9/10), p99 := q_opt amt (99/100) }
        let key := fun r => safe_float (cellAt df r ac)
        let top := pdHead (sortRowsDesc key df.rows) top_n
        let recs := top.map (mkTopRecord df cc nc price_col pc ac)
        .ok breadth pct_quantiles (some turnover_quantiles)
          limit_up_like limit_down_like (some recs)
      else
        .ok breadth pct_quantiles none limit_up_like limit_down_like none
  | _, _, _ => .missing "spot missing key columns" df.cols

/-- One record of the `top_gainers`/`top_losers` lists of
`_summarize_industry_board`: optional fields are present only when the
corresponding column exists in the frame. -/
structure BoardRecord where
  board : Cell
  pct_chg : Option ℚ
  adv : Option (Option ℚ)
  dec : Option (Option ℚ)
  leader : Option Cell
  leader_pct_chg : Option (Option ℚ)
deriving DecidableEq

/-- Result dict of `_summarize_industry_board`. -/
inductive BoardSummary where
  | missing (error : String) (available_cols : List String)
  | ok (top_gainers : List BoardRecord) (top_losers : List BoardRecord)
deriving DecidableEq

/-- Candidate lists of `_summarize_industry_board`, in source order. -/
def board_candidates : List String := ["板块名称", "行业名称", "名称", "board"]

def board_pct_candidates : List String := ["涨跌幅", "涨跌幅%", "涨跌幅(%)", "pct_chg"]

/-- The `pack` helper: build one board record from a row. -/
def mkBoardRecord (df : DataFrame) (bc pc : String) (r : List Cell) : BoardRecord :=
  { board := cellAt df r bc
    pct_chg := safe_float (cellAt df r pc)
    adv := if "上涨家数" ∈ df.cols then some (safe_float (cellAt df r "上涨家数")) else none
    dec := if "下跌家数" ∈ df.cols then some (safe_float (cellAt df r "下跌家数")) else none
    leader := if "领涨股票" ∈ df.cols then some (cellAt df r "领涨股票") else none
    leader_pct_chg :=
      if "领涨股票-涨跌幅" ∈ df.cols then some (safe_float (cellAt df r "领涨股票-涨跌幅"))
      else none }

/-- `_summarize_industry_board`. -/
def summarize_industry_board (df : DataFrame) (top_n : Int) : BoardSummary :=
  let board_col := pick_col df board_candidates
  let pct_col := pick_col df board_pct_candidates
  match board_col, pct_col with
  | some bc, some pc =>
    let key := fun r => safe_float (cellAt df r pc)
    let top_up := pdHead (sortRowsDesc key df.rows) top_n
    let top_dn := pdHead (sortRowsAsc key df.rows) top_n
    .ok (top_up.map (mkBoardRecord df bc pc)) (top_dn.map (mkBoardRecord df bc pc))
  | _, _ => .missing "industry board missing key columns" df.cols

/-- A Python exception: class name and message. -/
structure PyExn where
  ename : String
  emsg : String
deriving DecidableEq

/-- Outcome of one provider call: a returned DataFrame, a returned
non-DataFrame value, or a raised exception (`AttributeError` from
`_call_if_exists` included). -/
inductive FetchResult where
  | ok (df : DataFrame)
  | notDf
  | exn (ename emsg : String)
deriving DecidableEq

/-- The error string `_fetch_with_fallback` records for a failing attempt
(`none` when the attempt succeeds: a DataFrame with at least one row). -/
def attemptError : String × FetchResult → Option String
  | (n, .ok df) =>
    if 0 < df.rows.length then none else some ("[" ++ n ++ "] Empty dataframe")
  | (n, .notDf) => some ("[" ++ n ++ "] Empty dataframe")
  | (n, .exn en em) => some ("[" ++ n ++ "] " ++ en ++ ": " ++ em)

/-- The loop of `_fetch_with_fallback`, with the accumulated error list, also
counting the attempted fetchers. -/
def fetchFallbackAux (errors : List String) :
    List (String × FetchResult) → Except PyExn (DataFrame × List String) × Nat
  | [] =>
    (Except.error ⟨"RuntimeError",
        "All data sources failed:\n" ++ String.intercalate "\n" errors⟩, 0)
  | (n, FetchResult.ok df) :: rest =>
    if 0 < df.rows.length then (Except.ok (df, errors), 1)
    else
      let p := fetchFallbackAux (errors ++ ["[" ++ n ++ "] Empty dataframe"]) rest
      (p.1, p.2 + 1)
  | (n, FetchResult.notDf) :: rest =>
    let p := fetchFallbackAux (errors ++ ["[" ++ n ++ "] Empty dataframe"]) rest
    (p.1, p.2 + 1)
  | (n, FetchResult.exn en em) :: rest =>
    let p := fetchFallbackAux (errors ++ ["[" ++ n ++ "] " ++ en ++ ": " ++ em]) rest
    (p.1, p.2 + 1)

/-- `_fetch_with_fallback`: the returned value (or raised `RuntimeError`). -/
def fetch_with_fallback (fetchers : List (String × FetchResult)) :
    Except PyExn (DataFrame × List String) :=
  (fetchFallbackAux [] fetchers).1

/-- Number of fetchers `_fetch_with_fallback` attempts. -/
def fetchAttempts (fetchers : List (String × FetchResult)) : Nat :=
  (fetchFallbackAux [] fetchers).2

/-- Outcomes of the provider calls `market_state.py` can make. -/
structure World where
  stock_zh_a_spot_em : FetchResult
  stock_zh_a_spot : FetchResult
  stock_zh_a_spot_tx : FetchResult
  stock_zh_a_spot_sina : FetchResult
  stock_board_industry_name_em : FetchResult
  stock_sse_summary : FetchResult
  stock_szse_summary : String → FetchResult

/-- The fetcher chain of `fetch_hs_a`, in source order. -/
def hs_a_fetchers (w : World) : List (String × FetchResult) :=
  [("eastmoney_spot_em", w.stock_zh_a_spot_em),
   ("sina_spot", w.stock_zh_a_spot),
   ("tencent_spot", w.stock_zh_a_spot_tx),
   ("sina_spot_2", w.stock_zh_a_spot_sina)]

/-- The fetcher chain of `fetch_industry_board`. -/
def industry_fetchers (w : World) : List (String × FetchResult) :=
  [("eastmoney_industry_board", w.stock_board_industry_name_em)]

/-- `fetch_hs_a`: fallback fetch plus the fixed source tag `auto_fallback`. -/
def fetch_hs_a (w : World) :
    Except PyExn (DataFrame × String × List String) × Nat :=
  match fetchFallbackAux [] (hs_a_fetchers w) with
  | (Except.ok (df, errs), k) => (Except.ok (df, "auto_fallback", errs), k)
  | (Except.error e, k) => (Except.error e, k)

/-- `fetch_industry_board`: single-source chain, source tag `eastmoney`. -/
def fetch_industry_board (w : World) :
    Except PyExn (DataFrame × String × List String) × Nat :=
  match fetchFallbackAux [] (industry_fetchers w) with
  | (Except.ok (df, errs), k) => (Except.ok (df, "eastmoney", errs), k)
  | (Except.error e, k) => (Except.error e, k)

/-- The `params` dict after defaulting (`top_n=20`, `raw=False`,
`raw_rows=5`; `date` absent by default). -/
structure Params where
  top_n : Int := 20
  raw : Bool := false
  raw_rows : Int := 5
  date : Option String := none
deriving DecidableEq

/-- The `meta` envelope. `data_source` and `fallback_errors` are the keys
added only in the fetch branches. -/
structure Meta where
  scope : String
  asof : String
  source : String
  akshare_version : String
  params : Params
  data_source : Option String := none
  fallback_errors : Option (List String) := none
deriving DecidableEq

/-- The `data` payload of the exchange-summary branches: records of a
DataFrame, or the non-DataFrame value returned by the provider. -/
inductive DataPayload where
  | records (rs : List (List (String × Cell)))
  | nonDf
deriving DecidableEq

/-- The `summary` value of a report. -/
inductive Summary where
  | spot (s : SpotSummary)
  | board (b : BoardSummary)
deriving DecidableEq

/-- The report dict returned by `get_market_state`; absent keys are `none`. -/
structure Report where
  meta : Meta
  shape : Option (Nat × Nat) := none
  columns : Option (List String) := none
  summary : Option Summary := none
  data : Option DataPayload := none
  raw_head : Option (List (List (String × Cell))) := none
  error : Option String := none
  supported_scopes : Option (List String) := none
deriving DecidableEq

/-- `to_dict(orient="records")` on one row. -/
def rowRecord (df : DataFrame) (r : List Cell) : List (String × Cell) :=
  df.cols.zip r

/-- `df.to_dict(orient="records")`. -/
def dfRecords (df : DataFrame) : List (List (String × Cell)) :=
  df.rows.map (rowRecord df)

/-- `df.head(raw_rows).to_dict(orient="records")`. -/
def rawHead (df : DataFrame) (raw_rows : Int) : List (List (String × Cell)) :=
  (pdHead df.rows raw_rows).map (rowRecord df)

/-- The supported scope list of the unknown-scope error dict. -/
def supported_scope_list : List String :=
  ["hs_a", "industry_board", "sse_summary", "szse_summary"]

/-- Python `str.strip()`: drop leading and trailing whitespace. (Lean's
`String.trim` computes the same string but is not kernel-reducible, so the
embedding uses an explicit list-of-characters version.) -/
def pyStrip (s : String) : String :=
  ⟨((s.data.dropWhile Char.isWhitespace).reverse.dropWhile
      Char.isWhitespace).reverse⟩

/-- The `meta` dict as first assembled by `get_market_state`. -/
def base_meta (now akshare_version scope : String) (params : Params) : Meta :=
  { scope := scope
    asof := now
    source := "akshare"
    akshare_version := akshare_version
    params := params }

/-- The body of `get_market_state`'s `try` block: the report it returns, or
the exception escaping to the `except` clause, plus the provider-call count. -/
def dispatch (w : World) (meta : Meta) (scope : String) (params : Params) :
    Except PyExn Report × Nat :=
  let top_n := params.top_n
  let raw := params.raw
  let raw_rows := params.raw_rows
  if scope = "hs_a" then
    match fetch_hs_a w with
    | (Except.error e, k) => (Except.error e, k)
    | (Except.ok (df, src, errs), k) =>
      let meta := { meta with
        data_source := some src
        fallback_errors := if errs.isEmpty then none else some errs }
      (Except.ok
        { meta := meta
          shape := some (df.rows.length, df.cols.length)
          columns := some df.cols
          summary := some (.spot (summarize_spot df top_n))
          raw_head := if raw then some (rawHead df raw_rows) else none }, k)
  else if scope = "industry_board" then
    match fetch_industry_board w with
    | (Except.error e, k) => (Except.error e, k)
    | (Except.ok (df, src, errs), k) =>
      let meta := { meta with
        data_source := some src
        fallback_errors := if errs.isEmpty then none else some errs }
      (Except.ok
        { meta := meta
          shape := some (df.rows.length, df.cols.length)
          columns := some df.cols
          summary := some (.board (summarize_industry_board df top_n))
          raw_head := if raw then some (rawHead df raw_rows) else none }, k)
  else if scope = "sse_summary" then
    match w.stock_sse_summary with
    | FetchResult.exn en em => (Except.error ⟨en, em⟩, 1)
    | FetchResult.ok df =>
      (Except.ok
        { meta := meta
          shape := some (df.rows.length, df.cols.length)
          columns := some df.cols
          data := some (.records (dfRecords df))
          raw_head := if raw then some (rawHead df raw_rows) else none }, 1)
    | FetchResult.notDf => (Except.ok { meta := meta, data := some .nonDf }, 1)
  else if scope = "szse_summary" then
    let date := pyStrip (params.date.getD "")
    if date = "" then
      (Except.ok
        { meta := meta
          error := some "szse_summary requires params[\x27date\x27], e.g. \x2720200619\x27" }, 0)
    else
      match w.stock_szse_summary date with
      | FetchResult.exn en em => (Except.error ⟨en, em⟩, 1)
      | FetchResult.ok df =>
        (Except.ok
          { meta := meta
            shape := some (df.rows.length, df.cols.length)
            columns := some df.cols
            data := some (.records (dfRecords df))
            raw_head := if raw then some (rawHead df raw_rows) else none }, 1)
      | FetchResult.notDf => (Except.ok { meta := meta, data := some .nonDf }, 1)
  else
    (Except.ok
      { meta := meta
        error := some ("unknown scope: " ++ scope)
        supported_scopes := some supported_scope_list }, 0)

/-- `get_market_state`, also counting provider-call attempts. The `except`
clause wraps any escaping exception into an error report around the original
(unmutated) meta dict. -/
def get_market_state_c (w : World) (now akshare_version scope : String)
    (params : Params) : Report × Nat :=
  let meta := base_meta now akshare_version scope params
  match dispatch w meta scope params with
  | (Except.ok r, k) => (r, k)
  | (Except.error e, k) =>
    ({ meta := meta
       error := some ("fetch failed: " ++ e.ename ++ ": " ++ e.emsg) }, k)

/-- `get_market_state`: the returned report dict. -/
def get_market_state (w : World) (now akshare_version scope : String)
    (params : Params) : Report :=
  (get_market_state_c w now akshare_version scope params).1

/-! ### Lemmas about the fallback chain -/

theorem fetchFallbackAux_all_fail (fs : List (String × FetchResult)) :
    ∀ errors : List String, (∀ f ∈ fs, (attemptError f).isSome) →
      fetchFallbackAux errors fs =
        (Except.error ⟨"RuntimeError",
          "All data sources failed:\n" ++
            String.intercalate "\n" (errors ++ fs.filterMap attemptError)⟩,
         fs.length) := by
  induction fs with
  | nil => intro errors _; simp [fetchFallbackAux]
  | cons f fs ih =>
    intro errors h
    obtain ⟨n, r⟩ := f
    have hf := h (n, r) (List.mem_cons_self _ _)
    have htail := fun g hg => h g (List.mem_cons_of_mem _ hg)
    cases r with
    | ok df =>
      by_cases hlen : 0 < df.rows.length
      · simp [attemptError, hlen] at hf
      · have he : attemptError (n, FetchResult.ok df) =
            some ("[" ++ n ++ "] Empty dataframe") := by
          simp [attemptError, hlen]
        simp only [fetchFallbackAux, if_neg hlen, ih _ htail, List.filterMap_cons, he,
          List.length_cons, List.append_assoc, List.singleton_append]
    | notDf =>
      simp only [fetchFallbackAux, ih _ htail, List.filterMap_cons, attemptError,
        List.length_cons, List.append_assoc, List.singleton_append]
    | exn en em =>
      simp only [fetchFallbackAux, ih _ htail, List.filterMap_cons, attemptError,
        List.length_cons, List.append_assoc, List.singleton_append]

theorem fetchFallbackAux_first_success (pre : List (String × FetchResult))
    (n : String) (df : DataFrame) (post : List (String × FetchResult))
    (hdf : 0 < df.rows.length) :
    ∀ errors : List String, (∀ f ∈ pre, (attemptError f).isSome) →
      fetchFallbackAux errors (pre ++ (n, FetchResult.ok df) :: post) =
        (Except.ok (df, errors ++ pre.filterMap attemptError), pre.length + 1) := by
  induction pre with
  | nil =>
    intro errors _
    simp [fetchFallbackAux, if_pos hdf]
  | cons f pre ih =>
    intro errors h
    obtain ⟨m, r⟩ := f
    have hf := h (m, r) (List.mem_cons_self _ _)
    have htail := fun g hg => h g (List.mem_cons_of_mem _ hg)
    cases r with
    | ok df2 =>
      by_cases hlen : 0 < df2.rows.length
      · simp [attemptError, hlen] at hf
      · have he : attemptError (m, FetchResult.ok df2) =
            some ("[" ++ m ++ "] Empty dataframe") := by
          simp [attemptError, hlen]
        simp only [List.cons_append, List.append_eq, fetchFallbackAux, if_neg hlen,
          ih _ htail, List.filterMap_cons, he, List.length_cons, List.append_assoc,
          List.singleton_append, List.nil_append]
    | notDf =>
      simp only [List.cons_append, List.append_eq, fetchFallbackAux, ih _ htail,
        List.filterMap_cons, attemptError, List.length_cons, List.append_assoc,
        List.singleton_append, List.nil_append]
    | exn en em =>
      simp only [List.cons_append, List.append_eq, fetchFallbackAux, ih _ htail,
        List.filterMap_cons, attemptError, List.length_cons, List.append_assoc,
        List.singleton_append, List.nil_append]

theorem fetchFallbackAux_attempts_le (fs : List (String × FetchResult)) :
    ∀ errors : List String, (fetchFallbackAux errors fs).2 ≤ fs.length := by
  induction fs with
  | nil => intro errors; simp [fetchFallbackAux]
  | cons f fs ih =>
    intro errors
    obtain ⟨n, r⟩ := f
    cases r with
    | ok df =>
      by_cases hlen : 0 < df.rows.length
      · simp [fetchFallbackAux, if_pos hlen]
      · simpa [fetchFallbackAux, if_neg hlen, Nat.succ_le_succ_iff] using ih _
    | notDf => simpa [fetchFallbackAux, Nat.succ_le_succ_iff] using ih _
    | exn en em => simpa [fetchFallbackAux, Nat.succ_le_succ_iff] using ih _

/-! ### Claim theorems -/

/-- C1: `_fetch_with_fallback` tries the fetchers in list order; as soon as a
fetcher returns a DataFrame with at least one row it returns that DataFrame
paired with the error strings collected from all earlier fetchers (an
exception gives a `[name] ExcName: msg` entry, an empty or non-DataFrame
result a `[name] Empty dataframe` entry, and the chain continues); fetchers
after the first successful one are never attempted, whatever they are. -/
theorem C1_fallback_first_success (pre post : List (String × FetchResult))
    (n : String) (df : DataFrame)
    (hpre : ∀ f ∈ pre, (attemptError f).isSome)
    (hdf : 0 < df.rows.length) :
    fetch_with_fallback (pre ++ (n, FetchResult.ok df) :: post) =
      Except.ok (df, pre.filterMap attemptError) ∧
    fetchAttempts (pre ++ (n, FetchResult.ok df) :: post) = pre.length + 1 := by
  unfold fetch_with_fallback fetchAttempts
  rw [fetchFallbackAux_first_success pre n df post hdf [] hpre]
  simp

theorem C1_witness :
    (∀ f ∈ [("eastmoney_spot_em", FetchResult.exn "ConnectionError" "boom"),
            ("sina_spot", FetchResult.notDf)], (attemptError f).isSome) ∧
    0 < (DataFrame.mk ["code"] [[Cell.num 1]]).rows.length ∧
    fetch_with_fallback
        [("eastmoney_spot_em", FetchResult.exn "ConnectionError" "boom"),
         ("sina_spot", FetchResult.notDf),
         ("tencent_spot", FetchResult.ok (DataFrame.mk ["code"] [[Cell.num 1]])),
         ("sina_spot_2", FetchResult.exn "X" "y")] =
      Except.ok (DataFrame.mk ["code"] [[Cell.num 1]],
        ["[eastmoney_spot_em] ConnectionError: boom", "[sina_spot] Empty dataframe"]) ∧
    fetchAttempts
        [("eastmoney_spot_em", FetchResult.exn "ConnectionError" "boom"),
         ("sina_spot", FetchResult.notDf),
         ("tencent_spot", FetchResult.ok (DataFrame.mk ["code"] [[Cell.num 1]])),
         ("sina_spot_2", FetchResult.exn "X" "y")] = 3 := by
  refine ⟨by decide, by decide, ?_⟩
  have h := C1_fallback_first_success
    [("eastmoney_spot_em", FetchResult.exn "ConnectionError" "boom"),
     ("sina_spot", FetchResult.notDf)]
    [("sina_spot_2", FetchResult.exn "X" "y")]
    "tencent_spot" (DataFrame.mk ["code"] [[Cell.num 1]])
    (by decide) (by decide)
  exact ⟨h.1, h.2⟩

/-- C2: when every fetcher fails, `_fetch_with_fallback` raises a
`RuntimeError` whose message lists every collected per-source error string in
order of attempt; `get_market_state` catches every exception escaping its
`try` block and returns a report carrying the meta envelope and an `error`
string instead of propagating. -/
theorem C2_all_fail_runtime_error (w : World) (now v : String) (p : Params)
    (hall : ∀ f ∈ hs_a_fetchers w, (attemptError f).isSome) :
    fetch_with_fallback (hs_a_fetchers w) =
      Except.error ⟨"RuntimeError",
        "All data sources failed:\n" ++
          String.intercalate "\n" ((hs_a_fetchers w).filterMap attemptError)⟩ ∧
    get_market_state w now v "hs_a" p =
      { meta := base_meta now v "hs_a" p
        error := some ("fetch failed: RuntimeError: All data sources failed:\n" ++
          String.intercalate "\n" ((hs_a_fetchers w).filterMap attemptError)) } ∧
    (∀ scope e k,
      dispatch w (base_meta now v scope p) scope p = (Except.error e, k) →
      get_market_state w now v scope p =
        { meta := base_meta now v scope p
          error := some ("fetch failed: " ++ e.ename ++ ": " ++ e.emsg) }) := by
  have hfail := fetchFallbackAux_all_fail (hs_a_fetchers w) [] hall
  rw [List.nil_append] at hfail
  have hcatch : ∀ scope e k,
      dispatch w (base_meta now v scope p) scope p = (Except.error e, k) →
      get_market_state w now v scope p =
        { meta := base_meta now v scope p
          error := some ("fetch failed: " ++ e.ename ++ ": " ++ e.emsg) } := by
    intro scope e k h
    simp only [get_market_state, get_market_state_c]
    rw [h]
  refine ⟨?_, ?_, hcatch⟩
  · unfold fetch_with_fallback
    rw [hfail]
  · have h4 : dispatch w (base_meta now v "hs_a" p) "hs_a" p =
        (Except.error ⟨"RuntimeError",
          "All data sources failed:\n" ++
            String.intercalate "\n" ((hs_a_fetchers w).filterMap attemptError)⟩, 4) := by
      unfold dispatch fetch_hs_a
      rw [hfail]
      simp [show (hs_a_fetchers w).length = 4 from rfl]
    have h5 := hcatch "hs_a" _ _ h4
    rw [h5]
    dsimp only
    rw [← String.append_assoc]
    rfl

theorem C2_witness :
    (∀ f ∈ hs_a_fetchers
        { stock_zh_a_spot_em := FetchResult.exn "ConnectionError" "boom"
          stock_zh_a_spot := FetchResult.notDf
          stock_zh_a_spot_tx := FetchResult.ok (DataFrame.mk ["c"] [])
          stock_zh_a_spot_sina := FetchResult.exn "AttributeError" "no attr"
          stock_board_industry_name_em := FetchResult.notDf
          stock_sse_summary := FetchResult.notDf
          stock_szse_summary := fun _ => FetchResult.notDf },
      (attemptError f).isSome) ∧
    get_market_state
        { stock_zh_a_spot_em := FetchResult.exn "ConnectionError" "boom"
          stock_zh_a_spot := FetchResult.notDf
          stock_zh_a_spot_tx := FetchResult.ok (DataFrame.mk ["c"] [])
          stock_zh_a_spot_sina := FetchResult.exn "AttributeError" "no attr"
          stock_board_industry_name_em := FetchResult.notDf
          stock_sse_summary := FetchResult.notDf
          stock_szse_summary := fun _ => FetchResult.notDf }
        "2026-10-12 00:00:00" "1.0.0" "hs_a" {} =
      { meta := base_meta "2026-10-12 00:00:00" "1.0.0" "hs_a" {}
        error := some ("fetch failed: RuntimeError: All data sources failed:\n" ++
          String.intercalate "\n"
            ["[eastmoney_spot_em] ConnectionError: boom",
             "[sina_spot] Empty dataframe",
             "[tencent_spot] Empty dataframe",
             "[sina_spot_2] AttributeError: no attr"]) } := by
  refine ⟨by decide, ?_⟩
  have h := C2_all_fail_runtime_error
    { stock_zh_a_spot_em := FetchResult.exn "ConnectionError" "boom"
      stock_zh_a_spot := FetchResult.notDf
      stock_zh_a_spot_tx := FetchResult.ok (DataFrame.mk ["c"] [])
      stock_zh_a_spot_sina := FetchResult.exn "AttributeError" "no attr"
      stock_board_industry_name_em := FetchResult.notDf
      stock_sse_summary := FetchResult.notDf
      stock_szse_summary := fun _ => FetchResult.notDf }
    "2026-10-12 00:00:00" "1.0.0" {} (by decide)
  exact h.2.1

/-- A small nonempty snapshot frame used in concrete checks. -/
def dfSpot : DataFrame :=
  { cols := ["代码", "名称", "涨跌幅", "成交额"]
    rows := [[Cell.str "001", Cell.str "alpha", Cell.num 5, Cell.num 100],
             [Cell.str "002", Cell.str "beta", Cell.num (-2), Cell.num 300],
             [Cell.str "003", Cell.str "gamma", Cell.nan, Cell.num 200],
             [Cell.str "004", Cell.str "delta", Cell.num 0, Cell.nan]] }

/-- A world whose first hs_a source is down and whose second one works. -/
def wFallback : World :=
  { stock_zh_a_spot_em := FetchResult.exn "ConnectionError" "timed out"
    stock_zh_a_spot := FetchResult.ok dfSpot
    stock_zh_a_spot_tx := FetchResult.notDf
    stock_zh_a_spot_sina := FetchResult.notDf
    stock_board_industry_name_em := FetchResult.notDf
    stock_sse_summary := FetchResult.notDf
    stock_szse_summary := fun _ => FetchResult.notDf }

theorem fetch_hs_a_snd (w : World) :
    (fetch_hs_a w).2 = (fetchFallbackAux [] (hs_a_fetchers w)).2 := by
  unfold fetch_hs_a
  rcases haux : fetchFallbackAux [] (hs_a_fetchers w) with ⟨res, k⟩
  rcases res with e | ⟨df, errs⟩ <;> rfl

theorem fetch_industry_board_snd (w : World) :
    (fetch_industry_board w).2 = (fetchFallbackAux [] (industry_fetchers w)).2 := by
  unfold fetch_industry_board
  rcases haux : fetchFallbackAux [] (industry_fetchers w) with ⟨res, k⟩
  rcases res with e | ⟨df, errs⟩ <;> rfl

theorem dispatch_calls_le (w : World) (m : Meta) (scope : String) (p : Params) :
    (dispatch w m scope p).2 ≤ 4 := by
  have h1 : (fetchFallbackAux [] (hs_a_fetchers w)).2 ≤ 4 :=
    fetchFallbackAux_attempts_le (hs_a_fetchers w) []
  have h2 : (fetchFallbackAux [] (industry_fetchers w)).2 ≤ 1 :=
    fetchFallbackAux_attempts_le (industry_fetchers w) []
  unfold dispatch
  split
  · rcases hf : fetch_hs_a w with ⟨res, k⟩
    have hk : k ≤ 4 := by
      have h3 := fetch_hs_a_snd w
      rw [hf] at h3
      dsimp at h3
      rw [h3]
      exact h1
    rcases res with e | ⟨df, src, errs⟩ <;> simpa using hk
  · split
    · rcases hf : fetch_industry_board w with ⟨res, k⟩
      have hk : k ≤ 1 := by
        have h3 := fetch_industry_board_snd w
        rw [hf] at h3
        dsimp at h3
        rw [h3]
        exact h2
      rcases res with e | ⟨df, src, errs⟩ <;> simpa using hk.trans (by norm_num)
    · split
      · rcases hs : w.stock_sse_summary with df | _ | ⟨en, em⟩ <;> norm_num
      · split
        · dsimp only
          split
          · norm_num
          · rcases hs : w.stock_szse_summary (pyStrip (p.date.getD ""))
              with df | _ | ⟨en, em⟩ <;> norm_num
        · norm_num

theorem get_market_state_c_calls (w : World) (now v scope : String) (p : Params) :
    (get_market_state_c w now v scope p).2 =
      (dispatch w (base_meta now v scope p) scope p).2 := by
  simp only [get_market_state_c]
  rcases hd : dispatch w (base_meta now v scope p) scope p with ⟨res, k⟩
  rcases res with e | r <;> rfl

/-- C3 counterexample: with the first hs_a source failing (a connection
error) and the second succeeding, a single invocation of `get_market_state`
makes two provider calls, not exactly one. -/
theorem C3_counterexample :
    (get_market_state_c wFallback "2026-10-12 00:00:00" "1.0.0" "hs_a" {}).2 = 2 ∧
    (2 : Nat) ≠ 1 :=
  ⟨rfl, by decide⟩

/-- C3 amended: every invocation of `get_market_state` issues at most one
blocking provider call per fetcher attempted — hence at most four in total,
the fallback chain stopping at the first success — and returns a single
aggregated report value. -/
theorem C3_call_bound (w : World) (now v scope : String) (p : Params) :
    (get_market_state_c w now v scope p).2 ≤ 4 ∧
    get_market_state w now v scope p = (get_market_state_c w now v scope p).1 :=
  ⟨by rw [get_market_state_c_calls]; exact dispatch_calls_le w _ scope p, rfl⟩

theorem dispatch_ok_meta (w : World) (m : Meta) (scope : String) (p : Params) :
    ∀ r k, dispatch w m scope p = (Except.ok r, k) →
      r.meta.scope = m.scope ∧ r.meta.asof = m.asof ∧
      r.meta.params = m.params ∧ r.meta.source = m.source := by
  intro r k h
  unfold dispatch at h
  split at h
  · rcases hf : fetch_hs_a w with ⟨res, k2⟩
    rw [hf] at h
    rcases res with e | ⟨df, src, errs⟩
    · simp at h
    · rw [Prod.mk.injEq, Except.ok.injEq] at h
      obtain ⟨h1, -⟩ := h
      subst h1
      exact ⟨rfl, rfl, rfl, rfl⟩
  · split at h
    · rcases hf : fetch_industry_board w with ⟨res, k2⟩
      rw [hf] at h
      rcases res with e | ⟨df, src, errs⟩
      · simp at h
      · rw [Prod.mk.injEq, Except.ok.injEq] at h
        obtain ⟨h1, -⟩ := h
        subst h1
        exact ⟨rfl, rfl, rfl, rfl⟩
    · split at h
      · rcases hs : w.stock_sse_summary with df | _ | ⟨en, em⟩ <;> rw [hs] at h
        · rw [Prod.mk.injEq, Except.ok.injEq] at h
          obtain ⟨h1, -⟩ := h
          subst h1
          exact ⟨rfl, rfl, rfl, rfl⟩
        · rw [Prod.mk.injEq, Except.ok.injEq] at h
          obtain ⟨h1, -⟩ := h
          subst h1
          exact ⟨rfl, rfl, rfl, rfl⟩
        · simp at h
      · split at h
        · dsimp only at h
          split at h
          · rw [Prod.mk.injEq, Except.ok.injEq] at h
            obtain ⟨h1, -⟩ := h
            subst h1
            exact ⟨rfl, rfl, rfl, rfl⟩
          · rcases hs : w.stock_szse_summary (pyStrip (p.date.getD ""))
                with df | _ | ⟨en, em⟩ <;> rw [hs] at h
            · rw [Prod.mk.injEq, Except.ok.injEq] at h
              obtain ⟨h1, -⟩ := h
              subst h1
              exact ⟨rfl, rfl, rfl, rfl⟩
            · rw [Prod.mk.injEq, Except.ok.injEq] at h
              obtain ⟨h1, -⟩ := h
              subst h1
              exact ⟨rfl, rfl, rfl, rfl⟩
            · simp at h
        · rw [Prod.mk.injEq, Except.ok.injEq] at h
          obtain ⟨h1, -⟩ := h
          subst h1
          exact ⟨rfl, rfl, rfl, rfl⟩

/-- C4: the report of every invocation carries the meta envelope recording
the requested scope, the assembly timestamp, and the request parameters
(with `source = "akshare"`), and in the fallback-fetched scopes also the
data source actually used and, when any occurred, the fallback errors. -/
theorem C4_meta_envelope (w : World) (now v scope : String) (p : Params) :
    (get_market_state w now v scope p).meta.scope = scope ∧
    (get_market_state w now v scope p).meta.asof = now ∧
    (get_market_state w now v scope p).meta.params = p ∧
    (get_market_state w now v scope p).meta.source = "akshare" ∧
    (∀ df errs, fetch_with_fallback (hs_a_fetchers w) = Except.ok (df, errs) →
      (get_market_state w now v "hs_a" p).meta.data_source = some "auto_fallback" ∧
      (get_market_state w now v "hs_a" p).meta.fallback_errors =
        (if errs.isEmpty then none else some errs)) ∧
    (∀ df errs, fetch_with_fallback (industry_fetchers w) = Except.ok (df, errs) →
      (get_market_state w now v "industry_board" p).meta.data_source =
        some "eastmoney" ∧
      (get_market_state w now v "industry_board" p).meta.fallback_errors =
        (if errs.isEmpty then none else some errs)) := by
  have hbase : ∀ sc : String,
      (get_market_state w now v sc p).meta.scope = sc ∧
      (get_market_state w now v sc p).meta.asof = now ∧
      (get_market_state w now v sc p).meta.params = p ∧
      (get_market_state w now v sc p).meta.source = "akshare" := by
    intro sc
    simp only [get_market_state, get_market_state_c]
    rcases hd : dispatch w (base_meta now v sc p) sc p with ⟨res, k⟩
    rcases res with e | r
    · exact ⟨rfl, rfl, rfl, rfl⟩
    · exact dispatch_ok_meta w (base_meta now v sc p) sc p r k hd
  have hfetch : ∀ df errs,
      fetch_with_fallback (hs_a_fetchers w) = Except.ok (df, errs) →
      (get_market_state w now v "hs_a" p).meta.data_source = some "auto_fallback" ∧
      (get_market_state w now v "hs_a" p).meta.fallback_errors =
        (if errs.isEmpty then none else some errs) := by
    intro df errs h
    unfold fetch_with_fallback at h
    rcases haux : fetchFallbackAux [] (hs_a_fetchers w) with ⟨res, k⟩
    rw [haux] at h
    dsimp at h
    subst h
    simp only [get_market_state, get_market_state_c, dispatch, fetch_hs_a, haux]
    exact ⟨rfl, rfl⟩
  have hboard : ∀ df errs,
      fetch_with_fallback (industry_fetchers w) = Except.ok (df, errs) →
      (get_market_state w now v "industry_board" p).meta.data_source =
        some "eastmoney" ∧
      (get_market_state w now v "industry_board" p).meta.fallback_errors =
        (if errs.isEmpty then none else some errs) := by
    intro df errs h
    unfold fetch_with_fallback at h
    rcases haux : fetchFallbackAux [] (industry_fetchers w) with ⟨res, k⟩
    rw [haux] at h
    dsimp at h
    subst h
    simp only [get_market_state, get_market_state_c, dispatch, fetch_industry_board, haux]
    exact ⟨rfl, rfl⟩
  exact ⟨(hbase scope).1, (hbase scope).2.1, (hbase scope).2.2.1, (hbase scope).2.2.2,
    hfetch, hboard⟩

theorem C4_witness :
    (get_market_state wFallback "2026-10-12 00:00:00" "1.0.0" "hs_a"
        {}).meta.data_source = some "auto_fallback" ∧
    (get_market_state wFallback "2026-10-12 00:00:00" "1.0.0" "hs_a"
        {}).meta.fallback_errors =
      some ["[eastmoney_spot_em] ConnectionError: timed out"] := by
  have h := (C4_meta_envelope wFallback "2026-10-12 00:00:00" "1.0.0" "hs_a"
      {}).2.2.2.2.1 dfSpot ["[eastmoney_spot_em] ConnectionError: timed out"] (by rfl)
  exact ⟨h.1, h.2⟩

theorem countP_sign_triple_le (l : List (Option ℚ)) :
    l.countP (cmpSome fun v => decide (0 < v)) +
      l.countP (cmpSome fun v => decide (v < 0)) +
      l.countP (cmpSome fun v => decide (v = 0)) ≤ l.length := by
  induction l with
  | nil => simp
  | cons a l ih =>
    have ha : (if cmpSome (fun v => decide (0 < v)) a then 1 else 0) +
        ((if cmpSome (fun v => decide (v < 0)) a then 1 else 0) +
          (if cmpSome (fun v => decide (v = 0)) a then 1 else 0)) ≤ 1 := by
      rcases a with _ | v
      · simp [cmpSome]
      · rcases lt_trichotomy v 0 with h | h | h
        · simp [cmpSome, h, lt_asymm h, h.ne]
        · simp [cmpSome, h]
        · simp [cmpSome, h, lt_asymm h, h.ne']
    simp only [List.countP_cons, List.length_cons]
    omega

/-- C5: given located code/name/percent-change columns, the breadth counts of
`_summarize_spot` are exactly the counts of rows whose coerced percent-change
is positive, negative, and zero, `total` is the row count, non-coercible
rows count toward none of the three, and `advance + decline + flat ≤ total`. -/
theorem C5_breadth (df : DataFrame) (top_n : Int) (cc nc pc : String)
    (hcc : pick_col df code_candidates = some cc)
    (hnc : pick_col df name_candidates = some nc)
    (hpc : pick_col df pct_candidates = some pc) :
    ∃ b : Breadth,
      (∃ pq tq lu ld tt, summarize_spot df top_n = SpotSummary.ok b pq tq lu ld tt) ∧
      b.advance = ((colCells df pc).map safe_float).countP
        (cmpSome fun v => decide (0 < v)) ∧
      b.decline = ((colCells df pc).map safe_float).countP
        (cmpSome fun v => decide (v < 0)) ∧
      b.flat = ((colCells df pc).map safe_float).countP
        (cmpSome fun v => decide (v = 0)) ∧
      b.total = df.rows.length ∧
      b.advance + b.decline + b.flat ≤ b.total := by
  have hle := countP_sign_triple_le ((colCells df pc).map safe_float)
  have hlen : ((colCells df pc).map safe_float).length = df.rows.length := by
    simp [colCells]
  rw [hlen] at hle
  unfold summarize_spot
  rw [hcc, hnc, hpc]
  dsimp only
  rcases ha : pick_col df amount_candidates with _ | ac
  · exact ⟨_, ⟨_, _, _, _, _, rfl⟩, rfl, rfl, rfl, rfl, hle⟩
  · dsimp only
    by_cases hamt : (((colCells df ac).map safe_float).filterMap id).length ≠ 0
    · rw [if_pos hamt]
      exact ⟨_, ⟨_, _, _, _, _, rfl⟩, rfl, rfl, rfl, rfl, hle⟩
    · rw [if_neg hamt]
      exact ⟨_, ⟨_, _, _, _, _, rfl⟩, rfl, rfl, rfl, rfl, hle⟩

theorem C5_witness :
    ∃ b : Breadth,
      (∃ pq tq lu ld tt, summarize_spot dfSpot 20 = SpotSummary.ok b pq tq lu ld tt) ∧
      b.advance = ((colCells dfSpot "涨跌幅").map safe_float).countP
        (cmpSome fun v => decide (0 < v)) ∧
      b.decline = ((colCells dfSpot "涨跌幅").map safe_float).countP
        (cmpSome fun v => decide (v < 0)) ∧
      b.flat = ((colCells dfSpot "涨跌幅").map safe_float).countP
        (cmpSome fun v => decide (v = 0)) ∧
      b.total = dfSpot.rows.length ∧
      b.advance + b.decline + b.flat ≤ b.total :=
  C5_breadth dfSpot 20 "代码" "名称" "涨跌幅" (by decide) (by decide) (by decide)

/-- C6: `_pick_col` returns the first candidate (in candidate-list order)
that occurs among the column names, and `None` exactly when no candidate
occurs; consequently each semantic field of the summarizers is bound to the
highest-preference matching column name. -/
theorem C6_pick_col_first_match (df : DataFrame) (cands : List String) :
    (pick_col df cands = none ↔ ∀ c ∈ cands, c ∉ df.cols) ∧
    ∀ c, pick_col df cands = some c →
      c ∈ df.cols ∧
      ∃ pre post, cands = pre ++ c :: post ∧ ∀ b ∈ pre, b ∉ df.cols := by
  induction cands with
  | nil => simp [pick_col]
  | cons a rest ih =>
    by_cases ha : a ∈ df.cols
    · refine ⟨?_, ?_⟩
      · simp only [pick_col, if_pos ha]
        constructor
        · intro h; cases h
        · intro h; exact absurd ha (h a (List.mem_cons_self a rest))
      · intro c hc
        simp only [pick_col, if_pos ha, Option.some.injEq] at hc
        subst hc
        exact ⟨ha, [], rest, rfl, fun b hb => absurd hb (List.not_mem_nil b)⟩
    · refine ⟨?_, ?_⟩
      · simp only [pick_col, if_neg ha]
        rw [ih.1]
        constructor
        · intro h c hc
          rcases List.mem_cons.mp hc with rfl | hc
          · exact ha
          · exact h c hc
        · intro h c hc
          exact h c (List.mem_cons_of_mem _ hc)
      · intro c hc
        simp only [pick_col, if_neg ha] at hc
        obtain ⟨hmem, pre, post, heq, hpre⟩ := ih.2 c hc
        refine ⟨hmem, a :: pre, post, by rw [heq]; rfl, ?_⟩
        intro b hb
        rcases List.mem_cons.mp hb with rfl | hb
        · exact ha
        · exact hpre b hb

/-- A frame whose code column matches only the third candidate. -/
def dfPick : DataFrame :=
  { cols := ["symbol", "name", "pct_chg"]
    rows := [[Cell.str "001", Cell.str "alpha", Cell.num 1]] }

theorem C6_witness :
    "symbol" ∈ dfPick.cols ∧
    ∃ pre post, code_candidates = pre ++ "symbol" :: post ∧
      ∀ b ∈ pre, b ∉ dfPick.cols :=
  (C6_pick_col_first_match dfPick code_candidates).2 "symbol" (by decide)

theorem naLastGeB_total (a b : Option ℚ) :
    naLastGeB a b = true ∨ naLastGeB b a = true := by
  rcases a with _ | x <;> rcases b with _ | y <;> simp [naLastGeB]
  exact le_total y x

theorem naLastLeB_total (a b : Option ℚ) :
    naLastLeB a b = true ∨ naLastLeB b a = true := by
  rcases a with _ | x <;> rcases b with _ | y <;> simp [naLastLeB]
  exact le_total x y

theorem naLastGeB_trans : ∀ a b c : Option ℚ, naLastGeB a b = true →
    naLastGeB b c = true → naLastGeB a c = true
  | some x, some y, some z, h1, h2 => by
    simp only [naLastGeB, decide_eq_true_eq] at *
    exact h2.trans h1
  | some _, some _, none, _, _ => rfl
  | some _, none, none, _, _ => rfl
  | none, none, none, _, _ => rfl
  | some _, none, some _, _, h2 => by simp [naLastGeB] at h2
  | none, some _, _, h1, _ => by simp [naLastGeB] at h1
  | none, none, some _, _, h2 => by simp [naLastGeB] at h2

theorem naLastLeB_trans : ∀ a b c : Option ℚ, naLastLeB a b = true →
    naLastLeB b c = true → naLastLeB a c = true
  | some x, some y, some z, h1, h2 => by
    simp only [naLastLeB, decide_eq_true_eq] at *
    exact h1.trans h2
  | some _, some _, none, _, _ => rfl
  | some _, none, none, _, _ => rfl
  | none, none, none, _, _ => rfl
  | some _, none, some _, _, h2 => by simp [naLastLeB] at h2
  | none, some _, _, h1, _ => by simp [naLastLeB] at h1
  | none, none, some _, _, h2 => by simp [naLastLeB] at h2

instance (key : List Cell → Option ℚ) : IsTotal (List Cell) (descRowRel key) :=
  ⟨fun r s => naLastGeB_total (key r) (key s)⟩

instance (key : List Cell → Option ℚ) : IsTrans (List Cell) (descRowRel key) :=
  ⟨fun r s t => naLastGeB_trans (key r) (key s) (key t)⟩

instance (key : List Cell → Option ℚ) : IsTotal (List Cell) (ascRowRel key) :=
  ⟨fun r s => naLastLeB_total (key r) (key s)⟩

instance (key : List Cell → Option ℚ) : IsTrans (List Cell) (ascRowRel key) :=
  ⟨fun r s t => naLastLeB_trans (key r) (key s) (key t)⟩

theorem sorted_sortRowsDesc (key : List Cell → Option ℚ)
    (rows : List (List Cell)) :
    List.Sorted (descRowRel key) (sortRowsDesc key rows) :=
  List.sorted_insertionSort (descRowRel key) rows

theorem sorted_sortRowsAsc (key : List Cell → Option ℚ)
    (rows : List (List Cell)) :
    List.Sorted (ascRowRel key) (sortRowsAsc key rows) :=
  List.sorted_insertionSort (ascRowRel key) rows

theorem pdHead_sorted {α : Type} {r : α → α → Prop} {l : List α}
    (h : List.Sorted r l) (n : Int) : List.Sorted r (pdHead l n) := by
  unfold pdHead
  split <;> exact List.Pairwise.sublist (List.take_sublist _ _) h

theorem pdHead_length_le {α : Type} (l : List α) (n : Int) (hn : 0 ≤ n) :
    ((pdHead l n).length : Int) ≤ n := by
  unfold pdHead
  rw [if_pos hn]
  have h2 := List.length_take n.toNat l
  omega

theorem summarize_spot_top (df : DataFrame) (top_n : Int)
    (b : Breadth) (pq : PctQuantiles) (tq : Option TurnoverQuantiles)
    (lu ld : Nat) (l : List TopRecord)
    (h : summarize_spot df top_n = SpotSummary.ok b pq tq lu ld (some l)) :
    ∃ cc nc pc ac,
      pick_col df amount_candidates = some ac ∧
      l = (pdHead (sortRowsDesc (fun r => safe_float (cellAt df r ac))
            df.rows) top_n).map
          (mkTopRecord df cc nc (pick_col df price_candidates) pc ac) := by
  unfold summarize_spot at h
  rcases hc : pick_col df code_candidates with _ | cc <;>
    rcases hm : pick_col df name_candidates with _ | nc <;>
      rcases hp : pick_col df pct_candidates with _ | pc <;>
        rw [hc, hm, hp] at h <;> dsimp only at h <;> try simp at h
  rcases ha : pick_col df amount_candidates with _ | ac <;>
    rw [ha] at h <;> dsimp only at h
  · simp at h
  · split at h
    · rw [SpotSummary.ok.injEq] at h
      obtain ⟨-, -, -, -, -, hl⟩ := h
      rw [Option.some.injEq] at hl
      exact ⟨cc, nc, pc, ac, rfl, hl.symm⟩
    · simp at h

theorem summarize_industry_board_ok (df : DataFrame) (top_n : Int)
    (g lo : List BoardRecord)
    (h : summarize_industry_board df top_n = BoardSummary.ok g lo) :
    ∃ bc pc,
      g = (pdHead (sortRowsDesc (fun r => safe_float (cellAt df r pc))
            df.rows) top_n).map (mkBoardRecord df bc pc) ∧
      lo = (pdHead (sortRowsAsc (fun r => safe_float (cellAt df r pc))
            df.rows) top_n).map (mkBoardRecord df bc pc) := by
  unfold summarize_industry_board at h
  rcases hb : pick_col df board_candidates with _ | bc <;>
    rcases hp : pick_col df board_pct_candidates with _ | pc <;>
      rw [hb, hp] at h <;> dsimp only at h
  · exact absurd h (by simp)
  · exact absurd h (by simp)
  · exact absurd h (by simp)
  · rw [BoardSummary.ok.injEq] at h
    exact ⟨bc, pc, h.1.symm, h.2.symm⟩

/-- C7 amended: for every input DataFrame and every nonnegative `top_n`, the
`top_turnover` list of `_summarize_spot` (when produced) has at most `top_n`
records and is ordered by turnover descending (missing turnover last), and
the `top_gainers`/`top_losers` lists of `_summarize_industry_board` each
have at most `top_n` records, ordered by percent-change descending and
ascending respectively (for negative `top_n`, pandas `head` instead drops
the last `-top_n` records, so the bound fails). -/
theorem C7_top_lists (df : DataFrame) (top_n : Int) (hn : 0 ≤ top_n) :
    (∀ b pq tq lu ld l,
      summarize_spot df top_n = SpotSummary.ok b pq tq lu ld (some l) →
      (l.length : Int) ≤ top_n ∧
      l.Pairwise (fun a b => naLastGeB a.amount b.amount = true)) ∧
    (∀ g lo, summarize_industry_board df top_n = BoardSummary.ok g lo →
      (g.length : Int) ≤ top_n ∧ (lo.length : Int) ≤ top_n ∧
      g.Pairwise (fun a b => naLastGeB a.pct_chg b.pct_chg = true) ∧
      lo.Pairwise (fun a b => naLastLeB a.pct_chg b.pct_chg = true)) := by
  constructor
  · intro b pq tq lu ld l h
    obtain ⟨cc, nc, pc, ac, -, hl⟩ := summarize_spot_top df top_n b pq tq lu ld l h
    subst hl
    constructor
    · rw [List.length_map]
      exact pdHead_length_le _ top_n hn
    · exact List.Pairwise.map _ (fun r s hrs => hrs)
        (pdHead_sorted (sorted_sortRowsDesc _ df.rows) top_n)
  · intro g lo h
    obtain ⟨bc, pc, hg, hlo⟩ := summarize_industry_board_ok df top_n g lo h
    subst hg
    subst hlo
    refine ⟨?_, ?_, ?_, ?_⟩
    · rw [List.length_map]
      exact pdHead_length_le _ top_n hn
    · rw [List.length_map]
      exact pdHead_length_le _ top_n hn
    · exact List.Pairwise.map _ (fun r s hrs => hrs)
        (pdHead_sorted (sorted_sortRowsDesc _ df.rows) top_n)
    · exact List.Pairwise.map _ (fun r s hrs => hrs)
        (pdHead_sorted (sorted_sortRowsAsc _ df.rows) top_n)

/-- A two-row frame with strictly increasing turnover. -/
def dfTop : DataFrame :=
  { cols := ["代码", "名称", "涨跌幅", "成交额"]
    rows := [[Cell.str "001", Cell.str "a", Cell.num 1, Cell.num 100],
             [Cell.str "002", Cell.str "b", Cell.num 2, Cell.num 300]] }

/-- Expected `top_turnover` list for `dfTop` with `top_n = 1`. -/
def topRecsTop : List TopRecord :=
  [{ code := Cell.str "002", name := Cell.str "b", last := none,
     pct_chg := some 2, amount := some 300 }]

/-- Expected `top_gainers` list for `dfTop` with `top_n = 1`. -/
def gainersTop : List BoardRecord :=
  [{ board := Cell.str "b", pct_chg := some 2, adv := none, dec := none,
     leader := none, leader_pct_chg := none }]

/-- Expected `top_losers` list for `dfTop` with `top_n = 1`. -/
def losersTop : List BoardRecord :=
  [{ board := Cell.str "a", pct_chg := some 1, adv := none, dec := none,
     leader := none, leader_pct_chg := none }]

theorem C7_witness :
    (0 : Int) ≤ 1 ∧
    ((topRecsTop.length : Int) ≤ 1 ∧
      topRecsTop.Pairwise (fun a b => naLastGeB a.amount b.amount = true)) ∧
    ((gainersTop.length : Int) ≤ 1 ∧ (losersTop.length : Int) ≤ 1 ∧
      gainersTop.Pairwise (fun a b => naLastGeB a.pct_chg b.pct_chg = true) ∧
      losersTop.Pairwise (fun a b => naLastLeB a.pct_chg b.pct_chg = true)) := by
  refine ⟨by decide, ?_, ?_⟩
  · exact (C7_top_lists dfTop 1 (by decide)).1 _ _ _ _ _ _ rfl
  · exact (C7_top_lists dfTop 1 (by decide)).2 _ _ rfl

/-- Length of the `top_turnover` list, when present. -/
def SpotSummary.top_len : SpotSummary → Option Nat
  | .ok _ _ _ _ _ (some l) => some l.length
  | _ => none

/-- C7 counterexample: with `top_n = -1` (an `int` the source accepts from
`params`), `_summarize_spot` on a four-row frame produces a three-record
`top_turnover` list — pandas `head(-1)` keeps all but the last row — so the
list does not contain at most `top_n` records. -/
theorem C7_counterexample :
    (summarize_spot dfSpot (-1)).top_len = some 3 ∧ ¬((3 : Int) ≤ -1) :=
  ⟨rfl, by decide⟩

/-- C8: for every scope other than the four supported kinds,
`get_market_state` makes no provider call and returns the meta envelope, an
error naming the unknown scope, and the supported-scope list. -/
theorem C8_unknown_scope (w : World) (now v scope : String) (p : Params)
    (h : scope ∉ supported_scope_list) :
    get_market_state w now v scope p =
      { meta := base_meta now v scope p
        error := some ("unknown scope: " ++ scope)
        supported_scopes := some supported_scope_list } ∧
    (get_market_state_c w now v scope p).2 = 0 := by
  have h1 : ¬scope = "hs_a" := by intro e; subst e; exact h (by decide)
  have h2 : ¬scope = "industry_board" := by intro e; subst e; exact h (by decide)
  have h3 : ¬scope = "sse_summary" := by intro e; subst e; exact h (by decide)
  have h4 : ¬scope = "szse_summary" := by intro e; subst e; exact h (by decide)
  constructor <;>
    simp only [get_market_state, get_market_state_c, dispatch,
      if_neg h1, if_neg h2, if_neg h3, if_neg h4]

theorem C8_witness :
    "foo" ∉ supported_scope_list ∧
    get_market_state wFallback "2026-10-12 00:00:00" "1.0.0" "foo" {} =
      { meta := base_meta "2026-10-12 00:00:00" "1.0.0" "foo" {}
        error := some ("unknown scope: " ++ "foo")
        supported_scopes := some supported_scope_list } ∧
    (get_market_state_c wFallback "2026-10-12 00:00:00" "1.0.0" "foo" {}).2 = 0 := by
  refine ⟨by decide, ?_, ?_⟩
  · exact (C8_unknown_scope wFallback "2026-10-12 00:00:00" "1.0.0" "foo" {}
      (by decide)).1
  · exact (C8_unknown_scope wFallback "2026-10-12 00:00:00" "1.0.0" "foo" {}
      (by decide)).2

/-- C9: when no candidate column is located for code, name, or
percent-change (spot), or for board name or percent-change (board), the
summarizer returns the missing-key-columns error dict carrying the frame's
actual column names. -/
theorem C9_missing_columns (df : DataFrame) (top_n : Int) :
    ((pick_col df code_candidates = none ∨ pick_col df name_candidates = none ∨
        pick_col df pct_candidates = none) →
      summarize_spot df top_n =
        SpotSummary.missing "spot missing key columns" df.cols) ∧
    ((pick_col df board_candidates = none ∨
        pick_col df board_pct_candidates = none) →
      summarize_industry_board df top_n =
        BoardSummary.missing "industry board missing key columns" df.cols) := by
  constructor
  · intro h
    unfold summarize_spot
    rcases hc : pick_col df code_candidates with _ | cc <;>
      rcases hm : pick_col df name_candidates with _ | nc <;>
        rcases hp : pick_col df pct_candidates with _ | pc <;>
          simp_all
  · intro h
    unfold summarize_industry_board
    rcases hb : pick_col df board_candidates with _ | bc <;>
      rcases hp : pick_col df board_pct_candidates with _ | pc <;>
        simp_all

/-- A frame with no recognizable columns. -/
def dfNoCols : DataFrame := { cols := ["foo"], rows := [[Cell.num 1]] }

theorem C9_witness :
    (pick_col dfNoCols code_candidates = none ∨
      pick_col dfNoCols name_candidates = none ∨
      pick_col dfNoCols pct_candidates = none) ∧
    summarize_spot dfNoCols 20 =
      SpotSummary.missing "spot missing key columns" dfNoCols.cols ∧
    summarize_industry_board dfNoCols 20 =
      BoardSummary.missing "industry board missing key columns" dfNoCols.cols := by
  refine ⟨Or.inl (by decide), ?_, ?_⟩
  · exact (C9_missing_columns dfNoCols 20).1 (Or.inl (by decide))
  · exact (C9_missing_columns dfNoCols 20).2 (Or.inl (by decide))

/-- C10: for scope `szse_summary`, when the date parameter is absent or
strips to the empty string, `get_market_state` returns the meta envelope and
an error explaining that a date is required, with no provider call. -/
theorem C10_szse_requires_date (w : World) (now v : String) (p : Params)
    (h : pyStrip (p.date.getD "") = "") :
    get_market_state w now v "szse_summary" p =
      { meta := base_meta now v "szse_summary" p
        error :=
          some "szse_summary requires params[\x27date\x27], e.g. \x2720200619\x27" } ∧
    (get_market_state_c w now v "szse_summary" p).2 = 0 := by
  have h1 : ¬("szse_summary" = "hs_a") := by decide
  have h2 : ¬("szse_summary" = "industry_board") := by decide
  have h3 : ¬("szse_summary" = "sse_summary") := by decide
  constructor <;>
    simp only [get_market_state, get_market_state_c, dispatch,
      if_neg h1, if_neg h2, if_neg h3, if_pos rfl, h, if_pos]

theorem C10_witness :
    (pyStrip (({} : Params).date.getD "") = "") ∧
    get_market_state wFallback "2026-10-12 00:00:00" "1.0.0" "szse_summary" {} =
      { meta := base_meta "2026-10-12 00:00:00" "1.0.0" "szse_summary" {}
        error :=
          some "szse_summary requires params[\x27date\x27], e.g. \x2720200619\x27" } ∧
    (get_market_state_c wFallback "2026-10-12 00:00:00" "1.0.0"
        "szse_summary" {}).2 = 0 := by
  refine ⟨by decide, ?_, ?_⟩
  · exact (C10_szse_requires_date wFallback "2026-10-12 00:00:00" "1.0.0" {}
      (by decide)).1
  · exact (C10_szse_requires_date wFallback "2026-10-12 00:00:00" "1.0.0" {}
      (by decide)).2

end MarketState
